import Mathlib

/-!
Verification development for the ph-scale solution model and particle
visualization.

The development shallowly embeds the model code:

* `MacroSolution.ts` — reactive solution aggregate (solute volume, water
  volume, derived total volume / pH / color, atomic dual-field update).
* `MacroModel.ts` — per-tick flow integration and the autofill state machine.
* `RatioNode.js` — particle count computation and the position cache of the
  molecules canvas.

JavaScript numbers are modelled as exact rationals (`ℚ`) for the volume
arithmetic and as reals (`ℝ`) where the pH mathematics needs powers and
logarithms.  Axon `Property`/`DerivedProperty` semantics (a write notifies
listeners exactly when the stored value changes, and derived values are
recomputed synchronously) are modelled by explicit state passing plus an
explicit notification trace for the one place the spec cares about it
(draining).
-/

/-- An axon `NumberProperty`: a mutable rational value that remembers the
value it was constructed with, so that `reset` can restore it. -/
structure NumberProperty where
  initialValue : ℚ
  value : ℚ
  deriving DecidableEq, Repr

namespace NumberProperty

/-- `Property.set`: store a new value.  (Listener notification is modelled
separately, by the notification-trace functions below.) -/
def set (p : NumberProperty) (v : ℚ) : NumberProperty :=
  { p with value := v }

/-- `Property.reset`: restore the construction-time value. -/
def reset (p : NumberProperty) : NumberProperty :=
  { p with value := p.initialValue }

end NumberProperty

/-- Construction-time configuration of a `MacroSolution`.

`volumeDecimalPlaces` models `PHScaleConstants.VOLUME_DECIMAL_PLACES`.
Modelled from the spec: `PHScaleConstants.js` is not under `src/`; the spec
describes the constant as "the display's decimal precision" for volumes, so
it is kept as a configuration parameter here. -/
structure MacroSolutionConfig where
  maxVolume : ℚ
  volumeDecimalPlaces : ℕ
  deriving DecidableEq, Repr

/-- `MIN_VOLUME = Math.pow( 10, -PHScaleConstants.VOLUME_DECIMAL_PLACES )`
(MacroSolution.ts line 28): the minimum-resolvable-volume epsilon. -/
def MIN_VOLUME (cfg : MacroSolutionConfig) : ℚ :=
  1 / 10 ^ cfg.volumeDecimalPlaces

/-- The mutable state of a `MacroSolution`: its two source properties.
Derived values (total volume, pH, color) are functions of this state. -/
structure MacroSolutionState where
  soluteVolumeProperty : NumberProperty
  waterVolumeProperty : NumberProperty
  deriving DecidableEq, Repr

namespace MacroSolution

/-- `totalVolumeProperty` derivation: `soluteVolume + waterVolume`
(MacroSolution.ts line 101, outside the atomic-update window). -/
def totalVolume (st : MacroSolutionState) : ℚ :=
  st.soluteVolumeProperty.value + st.waterVolumeProperty.value

/-- `getFreeVolume`: `maxVolume - totalVolume` (MacroSolution.ts line 164). -/
def getFreeVolume (cfg : MacroSolutionConfig) (st : MacroSolutionState) : ℚ :=
  cfg.maxVolume - totalVolume st

/-- `addSolute` (MacroSolution.ts lines 168-172): for a positive delta, set
`soluteVolume` to `max( MIN_VOLUME, soluteVolume + min( deltaVolume, freeVolume ) )`. -/
def addSolute (cfg : MacroSolutionConfig) (st : MacroSolutionState) (deltaVolume : ℚ) :
    MacroSolutionState :=
  if 0 < deltaVolume then
    let v := max (MIN_VOLUME cfg)
      (st.soluteVolumeProperty.value + min deltaVolume (getFreeVolume cfg st))
    { st with soluteVolumeProperty := st.soluteVolumeProperty.set v }
  else st

/-- `addWater` (MacroSolution.ts lines 175-179): same shape as `addSolute`,
for the water volume. -/
def addWater (cfg : MacroSolutionConfig) (st : MacroSolutionState) (deltaVolume : ℚ) :
    MacroSolutionState :=
  if 0 < deltaVolume then
    let v := max (MIN_VOLUME cfg)
      (st.waterVolumeProperty.value + min deltaVolume (getFreeVolume cfg st))
    { st with waterVolumeProperty := st.waterVolumeProperty.set v }
  else st

/-- `setVolumeAtomic` (MacroSolution.ts lines 207-214), state effect only:
write the water volume, then the solute volume.  The `ignoreVolumeUpdate`
suppression only affects which notifications observers see; that is modelled
by the notification-trace functions below. -/
def setVolumeAtomic (st : MacroSolutionState) (waterVolume soluteVolume : ℚ) :
    MacroSolutionState :=
  { st with
    waterVolumeProperty := st.waterVolumeProperty.set waterVolume
    soluteVolumeProperty := st.soluteVolumeProperty.set soluteVolume }

/-- `drainSolution` (MacroSolution.ts lines 184-200): for a positive delta on
a non-empty solution, either drain everything (when the remaining total would
fall below `MIN_VOLUME`) or remove equal percentages of water and solute. -/
def drainSolution (cfg : MacroSolutionConfig) (st : MacroSolutionState) (deltaVolume : ℚ) :
    MacroSolutionState :=
  if 0 < deltaVolume then
    if 0 < totalVolume st then
      if totalVolume st - deltaVolume < MIN_VOLUME cfg then
        setVolumeAtomic st 0 0
      else
        setVolumeAtomic st
          (st.waterVolumeProperty.value -
            deltaVolume * st.waterVolumeProperty.value / totalVolume st)
          (st.soluteVolumeProperty.value -
            deltaVolume * st.soluteVolumeProperty.value / totalVolume st)
    else st
  else st

/-- `reset` (MacroSolution.ts lines 153-156): reset both volume properties to
their construction-time values. -/
def reset (st : MacroSolutionState) : MacroSolutionState :=
  { st with
    soluteVolumeProperty := st.soluteVolumeProperty.reset
    waterVolumeProperty := st.waterVolumeProperty.reset }

/-- The `soluteProperty.link` callback (MacroSolution.ts lines 145-150): when
the solute changes, reset both volumes to construction-time values, unless
PhET-iO state is being restored.  The global `isSettingPhetioStateProperty`
flag is passed as an explicit argument, as the spec's design notes direct. -/
def soluteChanged (isSettingPhetioState : Bool) (st : MacroSolutionState) :
    MacroSolutionState :=
  if isSettingPhetioState then st
  else
    { st with
      waterVolumeProperty := st.waterVolumeProperty.reset
      soluteVolumeProperty := st.soluteVolumeProperty.reset }

end MacroSolution

/-- Construction-time configuration of a `MacroModel`.  `autofillVolume` is
the autofill target (MacroModel.ts option `autofillVolume`); the solution is
constructed with `maxVolume` equal to the beaker volume. -/
structure MacroModelConfig where
  solutionConfig : MacroSolutionConfig
  autofillVolume : ℚ
  deriving DecidableEq, Repr

/-- The part of `MacroModel`'s state that the per-tick update touches: the
solution, the autofill flag, the dropper (flow rate, dispensing flag,
enablement) and the two faucets (flow rates, enablement). -/
structure MacroModelState where
  solution : MacroSolutionState
  isAutofilling : Bool
  dropperFlowRate : ℚ
  dropperIsDispensing : Bool
  waterFaucetFlowRate : ℚ
  drainFaucetFlowRate : ℚ
  waterFaucetEnabled : Bool
  drainFaucetEnabled : Bool
  dropperEnabled : Bool
  deriving DecidableEq, Repr

namespace MacroModel

open MacroSolution

/-- `updateFaucetsAndDropper` (MacroModel.ts lines 183-188): enable the water
faucet and dropper when the beaker is not full, the drain faucet when it is
not empty.  The beaker volume equals the solution's `maxVolume`
(MacroModel.ts line 108). -/
def updateFaucetsAndDropper (cfg : MacroModelConfig) (mst : MacroModelState) :
    MacroModelState :=
  { mst with
    waterFaucetEnabled := decide (totalVolume mst.solution < cfg.solutionConfig.maxVolume)
    drainFaucetEnabled := decide (0 < totalVolume mst.solution)
    dropperEnabled := decide (totalVolume mst.solution < cfg.solutionConfig.maxVolume) }

/-- The `totalVolumeProperty.link` registered in the `MacroModel` constructor
(lines 166-168): whenever a volume-affecting operation changes the total
volume, faucet and dropper enablement is recomputed.  `sol` is the solution
state after the operation. -/
def withVolumeLink (cfg : MacroModelConfig) (mst : MacroModelState)
    (sol : MacroSolutionState) : MacroModelState :=
  let mst2 := { mst with solution := sol }
  if totalVolume sol ≠ totalVolume mst.solution then updateFaucetsAndDropper cfg mst2
  else mst2

/-- `stopAutofill` (MacroModel.ts lines 231-235). -/
def stopAutofill (cfg : MacroModelConfig) (mst : MacroModelState) : MacroModelState :=
  updateFaucetsAndDropper cfg
    { mst with isAutofilling := false, dropperIsDispensing := false }

/-- `stepAutofill` (MacroModel.ts lines 221-226): add
`min( dropperFlowRate * dt, autofillVolume - totalVolume )` of solute, then
transition out of autofill when the total volume equals the target exactly. -/
def stepAutofill (cfg : MacroModelConfig) (mst : MacroModelState) (dt : ℚ) :
    MacroModelState :=
  let mst2 := withVolumeLink cfg mst
    (addSolute cfg.solutionConfig mst.solution
      (min (mst.dropperFlowRate * dt) (cfg.autofillVolume - totalVolume mst.solution)))
  if totalVolume mst2.solution = cfg.autofillVolume then stopAutofill cfg mst2 else mst2

/-- `step` (MacroModel.ts lines 193-202): autofill when autofilling,
otherwise add solute, add water, then drain, in that order. -/
def step (cfg : MacroModelConfig) (mst : MacroModelState) (dt : ℚ) : MacroModelState :=
  if mst.isAutofilling then stepAutofill cfg mst dt
  else
    let m1 := withVolumeLink cfg mst
      (addSolute cfg.solutionConfig mst.solution (mst.dropperFlowRate * dt))
    let m2 := withVolumeLink cfg m1
      (addWater cfg.solutionConfig m1.solution (m1.waterFaucetFlowRate * dt))
    withVolumeLink cfg m2
      (drainSolution cfg.solutionConfig m2.solution (m2.drainFaucetFlowRate * dt))

end MacroModel

/-- Demonstration configuration for the autofill claims: `maxVolume = 1`, two
decimal places of volume precision (`MIN_VOLUME = 0.01`), autofill target
`0.5` L. -/
def autofillCfg : MacroModelConfig := ⟨⟨1, 2⟩, 1/2⟩

/-- Demonstration state at the start of an autofill: empty solution, autofill
running, dropper dispensing at the fixed fast rate `0.75` L/s, faucets off. -/
def autofillState : MacroModelState :=
  { solution := ⟨⟨0, 0⟩, ⟨0, 0⟩⟩
    isAutofilling := true
    dropperFlowRate := 3/4
    dropperIsDispensing := true
    waterFaucetFlowRate := 0
    drainFaucetFlowRate := 0
    waterFaucetEnabled := false
    drainFaucetEnabled := false
    dropperEnabled := true }

/-- The state of `MoleculesCanvas` (RatioNode.js lines 216-253): the
remembered counts of significant entries and the pre-allocated coordinate
arrays, modelled as total functions from index to coordinate.  The global
random source (`phet.joist.random.nextIntBetween`) is modelled, as the
spec's design notes direct, as an injected stream `rand : ℕ → ℤ` consumed
one value per `createRandomX`/`createRandomY` call; `nextDraw` is the index
of the next unconsumed stream element. -/
structure MoleculesCanvasState where
  numberOfH3OMolecules : ℕ
  numberOfOHMolecules : ℕ
  xH3O : ℕ → ℤ
  yH3O : ℕ → ℤ
  xOH : ℕ → ℤ
  yOH : ℕ → ℤ
  nextDraw : ℕ

/-- `drawMolecules` (RatioNode.js lines 263-288): a no-op when both counts
equal the remembered counts; otherwise regenerate the coordinates of BOTH
species from index `0` up to each new count (the H3O loop draws x then y for
each index, then the OH loop does the same), and remember the new counts. -/
def drawMolecules (rand : ℕ → ℤ) (numberOfH3OMolecules numberOfOHMolecules : ℕ)
    (st : MoleculesCanvasState) : MoleculesCanvasState :=
  if numberOfH3OMolecules ≠ st.numberOfH3OMolecules ∨
      numberOfOHMolecules ≠ st.numberOfOHMolecules then
    { numberOfH3OMolecules := numberOfH3OMolecules
      numberOfOHMolecules := numberOfOHMolecules
      xH3O := fun i => if i < numberOfH3OMolecules then rand (st.nextDraw + 2 * i) else st.xH3O i
      yH3O := fun i => if i < numberOfH3OMolecules then rand (st.nextDraw + 2 * i + 1) else st.yH3O i
      xOH := fun i =>
        if i < numberOfOHMolecules then
          rand (st.nextDraw + 2 * numberOfH3OMolecules + 2 * i)
        else st.xOH i
      yOH := fun i =>
        if i < numberOfOHMolecules then
          rand (st.nextDraw + 2 * numberOfH3OMolecules + 2 * i + 1)
        else st.yOH i
      nextDraw := st.nextDraw + 2 * numberOfH3OMolecules + 2 * numberOfOHMolecules }
  else st

/-- The canvas at construction (RatioNode.js lines 224-234): zero counts,
zero-filled coordinate arrays, no random draws consumed yet. -/
def initialCanvas : MoleculesCanvasState :=
  { numberOfH3OMolecules := 0
    numberOfOHMolecules := 0
    xH3O := fun _ => 0
    yH3O := fun _ => 0
    xOH := fun _ => 0
    yOH := fun _ => 0
    nextDraw := 0 }

/-- `Utils.roundSymmetric`: round half away from zero.  Modelled from the
spec: dot's `Utils.js` is not under `src/`; the spec only asks for rounding
to the display precision, and symmetric rounding is the variant the
`roundSymmetric` call sites name. -/
noncomputable def roundSymmetric (x : ℝ) : ℤ :=
  if x < 0 then -⌊-x + 1/2⌋ else ⌊x + 1/2⌋

/-- `Utils.toFixedNumber( x, n )`: `x` rounded to `n` decimal places, as a
number.  Modelled from the spec: dot's `Utils.js` is not under `src/`. -/
noncomputable def toFixedNumber (x : ℝ) (n : ℕ) : ℝ :=
  (roundSymmetric (x * 10 ^ n) : ℝ) / 10 ^ n

/-- `PHScaleConstants.PH_METER_DECIMAL_PLACES`.  Modelled from the spec:
`PHScaleConstants.js` is not under `src/`; the value 2 is fixed by the
comment in MacroSolution.ts line 218 ("the value displayed to the user is
'7.00'"). -/
def PH_METER_DECIMAL_PLACES : ℕ := 2

/-- `Water.pH`.  Modelled from the spec: `Water.js` is not under `src/`; the
spec's glossary fixes neutral water at pH 7. -/
noncomputable def waterPH : ℝ := 7

/-- `PHModel.pHToConcentrationH3O( pH ) = 10^(-pH)`.  Modelled from the
spec (§4.1): `PHModel.js` is not under `src/`. -/
noncomputable def pHToConcentrationH3O (pH : ℝ) : ℝ :=
  (10 : ℝ) ^ (-pH)

/-- `PHModel.pHToConcentrationOH( pH ) = 10^(pH - 14)`.  Modelled from the
spec (§4.1): `PHModel.js` is not under `src/`. -/
noncomputable def pHToConcentrationOH (pH : ℝ) : ℝ :=
  (10 : ℝ) ^ (pH - 14)

/-- `PHModel.computePH( solutePH, soluteVolume, waterVolume )`.  Modelled
from the spec: `PHModel.js` is not under `src/`.  Per §4.1 the result is
null when no solution is present; otherwise the stock solute's acid (for
`solutePH < 7`) or base concentration is diluted into the water volume —
the volume-weighted mixture of the stock concentration and water's own
concentration, which meets the spec's required limit cases
(`soluteVolume → 0 ⇒ pH → 7`, `waterVolume → 0 ⇒ pH → initialPH`) — and the
pH is recovered from the diluted concentration by inverting the species'
concentration formula. -/
noncomputable def computePH (solutePH : ℝ) (soluteVolume waterVolume : ℚ) : Option ℝ :=
  if soluteVolume + waterVolume = 0 then none
  else if solutePH < 7 then
    some (-Real.logb 10
      ((pHToConcentrationH3O solutePH * (soluteVolume : ℝ) +
        pHToConcentrationH3O 7 * (waterVolume : ℝ)) /
       ((soluteVolume : ℝ) + (waterVolume : ℝ))))
  else
    some (14 + Real.logb 10
      ((pHToConcentrationOH solutePH * (soluteVolume : ℝ) +
        pHToConcentrationOH 7 * (waterVolume : ℝ)) /
       ((soluteVolume : ℝ) + (waterVolume : ℝ))))

open Classical in
/-- The sequence of pH values a `pHProperty` subscriber observes during
`setVolumeAtomic( waterVolume, soluteVolume )` (MacroSolution.ts lines
207-214 together with the `pHProperty` derivation at lines 109-123).

Axon notification semantics, modelled from the spec (§5-§6): writing a
source property notifies listeners exactly when the stored value changes;
the derived `pHProperty` then recomputes synchronously and notifies its own
subscribers exactly when the recomputed value differs from its current one.
`setVolumeAtomic` sets `ignoreVolumeUpdate` exactly when both volumes are
about to change; while it is set the derivation returns the property's
current value (line 113), and it is cleared before the second write. -/
noncomputable def setVolumeAtomicNotifications (solutePH : ℝ) (st : MacroSolutionState)
    (waterVolume soluteVolume : ℚ) : List (Option ℝ) :=
  let pH0 := computePH solutePH st.soluteVolumeProperty.value st.waterVolumeProperty.value
  let ignore := waterVolume ≠ st.waterVolumeProperty.value ∧
    soluteVolume ≠ st.soluteVolumeProperty.value
  let pH1 := if waterVolume = st.waterVolumeProperty.value then pH0
    else if ignore then pH0
    else computePH solutePH st.soluteVolumeProperty.value waterVolume
  let notes1 : List (Option ℝ) :=
    if waterVolume ≠ st.waterVolumeProperty.value ∧ pH1 ≠ pH0 then [pH1] else []
  let pH2 := if soluteVolume = st.soluteVolumeProperty.value then pH1
    else computePH solutePH soluteVolume waterVolume
  let notes2 : List (Option ℝ) :=
    if soluteVolume ≠ st.soluteVolumeProperty.value ∧ pH2 ≠ pH1 then [pH2] else []
  notes1 ++ notes2

open MacroSolution in
/-- The pH notifications a subscriber observes during
`drainSolution( deltaVolume )` (MacroSolution.ts lines 184-200): the branch
structure of `drainSolution`, with each `setVolumeAtomic` call replaced by
its notification trace.  When no volumes are written, no notifications are
observed. -/
noncomputable def drainNotifications (cfg : MacroSolutionConfig) (solutePH : ℝ)
    (st : MacroSolutionState) (deltaVolume : ℚ) : List (Option ℝ) :=
  if 0 < deltaVolume then
    if 0 < totalVolume st then
      if totalVolume st - deltaVolume < MIN_VOLUME cfg then
        setVolumeAtomicNotifications solutePH st 0 0
      else
        setVolumeAtomicNotifications solutePH st
          (st.waterVolumeProperty.value -
            deltaVolume * st.waterVolumeProperty.value / totalVolume st)
          (st.soluteVolumeProperty.value -
            deltaVolume * st.soluteVolumeProperty.value / totalVolume st)
    else []
  else []

/-- The drain scenario state for C2: `waterVolume = 0.6`,
`soluteVolume = 0.4`, so `totalVolume = 1`. -/
def drainDemoState : MacroSolutionState := ⟨⟨0, 2/5⟩, ⟨0, 3/5⟩⟩

/-- `TOTAL_MOLECULES_AT_PH_7` (RatioNode.js line 35). -/
def TOTAL_MOLECULES_AT_PH_7 : ℕ := 100

/-- `MAX_MAJORITY_MOLECULES` (RatioNode.js line 36). -/
def MAX_MAJORITY_MOLECULES : ℕ := 3000

/-- `MIN_MINORITY_MOLECULES` (RatioNode.js line 37). -/
def MIN_MINORITY_MOLECULES : ℕ := 5

/-- `computeNumberOfH3O` (RatioNode.js lines 200-202):
`roundSymmetric( pHToConcentrationH3O( pH ) * ( TOTAL_MOLECULES_AT_PH_7 / 2 ) / 1E-7 )`. -/
noncomputable def computeNumberOfH3O (pH : ℝ) : ℤ :=
  roundSymmetric (pHToConcentrationH3O pH * ((TOTAL_MOLECULES_AT_PH_7 : ℝ) / 2) / (1 / 10 ^ 7))

/-- `computeNumberOfOH` (RatioNode.js lines 205-207). -/
noncomputable def computeNumberOfOH (pH : ℝ) : ℤ :=
  roundSymmetric (pHToConcentrationOH pH * ((TOTAL_MOLECULES_AT_PH_7 : ℝ) / 2) / (1 / 10 ^ 7))

open Classical in
/-- The particle-count mapping of `RatioNode.update` (RatioNode.js lines
124-184), as a function of the (already display-rounded) pH: `null` maps to
zero counts; inside `LOG_PH_RANGE = [6, 8]` the counts vary logarithmically
with a minority floor of `MIN_MINORITY_MOLECULES`; outside, they continue
linearly with slope
`N = (MAX_MAJORITY_MOLECULES - computeNumberOfOH(8)) / (14 - 8)`, and the
results are converted to integers with symmetric rounding. -/
noncomputable def countsOfPH (pH : Option ℝ) : ℤ × ℤ :=
  match pH with
  | none => (0, 0)
  | some pH =>
    if 6 ≤ pH ∧ pH ≤ 8 then
      (roundSymmetric (max ((MIN_MINORITY_MOLECULES : ℝ)) ((computeNumberOfH3O pH : ℝ))),
       roundSymmetric (max ((MIN_MINORITY_MOLECULES : ℝ)) ((computeNumberOfOH pH : ℝ))))
    else
      let N : ℝ := ((MAX_MAJORITY_MOLECULES : ℝ) - (computeNumberOfOH 8 : ℝ)) / (14 - 8)
      if 8 < pH then
        (roundSymmetric (max ((MIN_MINORITY_MOLECULES : ℝ))
            ((computeNumberOfH3O 8 : ℝ) - (pH - 8))),
         roundSymmetric ((computeNumberOfOH 8 : ℝ) + (pH - 8) * N))
      else
        (roundSymmetric ((computeNumberOfH3O 6 : ℝ) + (6 - pH) * N),
         roundSymmetric (max ((MIN_MINORITY_MOLECULES : ℝ))
            ((computeNumberOfOH 6 : ℝ) - (6 - pH))))

/-- Display colors.  Modelled from the spec: scenery's `Color`, `Water.color`
and `Solute.computeColor` are not under `src/`.  Colors are represented
symbolically; the code's `Color.BLACK` and the pure-water color are distinct
concrete colors (the code comments that black is "no solution, should never
see this color displayed"), and a solute's computed color is the
concentration-fraction interpolation the solute carries. -/
inductive SimColor where
  | black
  | water
  | soluteColor (fraction : ℚ)
  deriving DecidableEq, Repr

/-- A solute, as `MacroSolution` consumes it: its stock pH and its
`computeColor` interpolation function.  Modelled from the spec:
`Solute.js` is not under `src/`. -/
structure Solute where
  pH : ℝ
  computeColor : ℚ → SimColor

open Classical in
/-- `isEquivalentToWater` (MacroSolution.ts lines 220-223): the derived pH is
non-null and, rounded to the pH meter's display precision, equals water's
pH. -/
noncomputable def isEquivalentToWater (solute : Solute) (st : MacroSolutionState) : Prop :=
  match computePH solute.pH st.soluteVolumeProperty.value st.waterVolumeProperty.value with
  | none => False
  | some pH => toFixedNumber pH PH_METER_DECIMAL_PLACES = waterPH

open Classical in
/-- The `colorProperty` derivation (MacroSolution.ts lines 125-140), outside
the atomic-update window: black when there is no solution, the pure-water
color when the solute volume is zero or the displayed pH rounds to water's,
otherwise the solute's color at the current concentration fraction. -/
noncomputable def colorValue (solute : Solute) (st : MacroSolutionState) : SimColor :=
  if st.soluteVolumeProperty.value + st.waterVolumeProperty.value = 0 then
    SimColor.black
  else if st.soluteVolumeProperty.value = 0 ∨ isEquivalentToWater solute st then
    SimColor.water
  else
    solute.computeColor (st.soluteVolumeProperty.value /
      (st.soluteVolumeProperty.value + st.waterVolumeProperty.value))

/-- A demonstration solute with stock pH 3. -/
noncomputable def demoSolute : Solute := ⟨3, SimColor.soluteColor⟩

namespace MacroModel

open MacroSolution

theorem withVolumeLink_solution (cfg : MacroModelConfig) (mst : MacroModelState)
    (sol : MacroSolutionState) : (withVolumeLink cfg mst sol).solution = sol := by
  simp only [withVolumeLink, updateFaucetsAndDropper]
  split <;> rfl

theorem stopAutofill_spec (cfg : MacroModelConfig) (mst : MacroModelState) :
    (stopAutofill cfg mst).solution = mst.solution ∧
    (stopAutofill cfg mst).isAutofilling = false ∧
    (stopAutofill cfg mst).dropperIsDispensing = false ∧
    (stopAutofill cfg mst).waterFaucetEnabled =
      decide (totalVolume mst.solution < cfg.solutionConfig.maxVolume) ∧
    (stopAutofill cfg mst).drainFaucetEnabled = decide (0 < totalVolume mst.solution) ∧
    (stopAutofill cfg mst).dropperEnabled =
      decide (totalVolume mst.solution < cfg.solutionConfig.maxVolume) :=
  ⟨rfl, rfl, rfl, rfl, rfl, rfl⟩

end MacroModel

open MacroSolution in
/-- C1: for every state with `totalVolume > 0` and every `deltaVolume > 0`,
`drainSolution` reduces both volumes by the factor
`1 - deltaVolume/totalVolume` when `totalVolume - deltaVolume` is at least
`MIN_VOLUME`, and sets both volumes to exactly zero when it would fall below
`MIN_VOLUME`. -/
theorem drainSolution_proportional_or_empty
    (cfg : MacroSolutionConfig) (st : MacroSolutionState) (deltaVolume : ℚ)
    (htotal : 0 < totalVolume st) (hdelta : 0 < deltaVolume) :
    (MIN_VOLUME cfg ≤ totalVolume st - deltaVolume →
      (drainSolution cfg st deltaVolume).waterVolumeProperty.value =
        st.waterVolumeProperty.value * (1 - deltaVolume / totalVolume st) ∧
      (drainSolution cfg st deltaVolume).soluteVolumeProperty.value =
        st.soluteVolumeProperty.value * (1 - deltaVolume / totalVolume st)) ∧
    (totalVolume st - deltaVolume < MIN_VOLUME cfg →
      (drainSolution cfg st deltaVolume).waterVolumeProperty.value = 0 ∧
      (drainSolution cfg st deltaVolume).soluteVolumeProperty.value = 0) := by
  have ht : totalVolume st ≠ 0 := ne_of_gt htotal
  constructor
  · intro h
    have hcond : ¬(totalVolume st - deltaVolume < MIN_VOLUME cfg) := not_lt.mpr h
    simp only [drainSolution, setVolumeAtomic, NumberProperty.set, if_pos hdelta,
      if_pos htotal, if_neg hcond]
    constructor
    · field_simp
      ring
    · field_simp
      ring
  · intro h
    simp only [drainSolution, setVolumeAtomic, NumberProperty.set, if_pos hdelta,
      if_pos htotal, if_pos h]
    exact ⟨trivial, trivial⟩

/-- Witness for C1: the spec's scenario.  `maxVolume = 1`, two decimal places
of volume precision, `waterVolume = 0.6`, `soluteVolume = 0.4`;
`drainSolution(0.5)` yields `waterVolume = 0.3`, `soluteVolume = 0.2`. -/
theorem drainSolution_proportional_or_empty_witness :
    (MacroSolution.drainSolution ⟨1, 2⟩ ⟨⟨0, 2/5⟩, ⟨0, 3/5⟩⟩ (1/2)).waterVolumeProperty.value
        = 3/10 ∧
    (MacroSolution.drainSolution ⟨1, 2⟩ ⟨⟨0, 2/5⟩, ⟨0, 3/5⟩⟩ (1/2)).soluteVolumeProperty.value
        = 1/5 := by
  have h := drainSolution_proportional_or_empty ⟨1, 2⟩ ⟨⟨0, 2/5⟩, ⟨0, 3/5⟩⟩ (1/2)
    (by norm_num [MacroSolution.totalVolume]) (by norm_num)
  have h2 := h.1 (by norm_num [MacroSolution.totalVolume, MIN_VOLUME])
  refine ⟨?_, ?_⟩
  · rw [h2.1]
    norm_num [MacroSolution.totalVolume]
  · rw [h2.2]
    norm_num [MacroSolution.totalVolume]

/-- C3 (code bug): the invariant `totalVolume ≤ maxVolume` is not maintained
by `addSolute`.  With `maxVolume = 1` and two decimal places of volume
precision, starting from an empty solution, `addWater(1)` fills the beaker
exactly, and a subsequent `addSolute(0.5)` snaps the solute volume up to
`MIN_VOLUME = 0.01` even though the free volume is zero, making
`totalVolume = 1.01 > maxVolume` — contradicting the code's own
`phetioDocumentation` ("soluteVolumeProperty + waterVolumeProperty should be
<= 1"). -/
theorem addSolute_exceeds_maxVolume :
    MacroSolution.totalVolume
        (MacroSolution.addSolute ⟨1, 2⟩
          (MacroSolution.addWater ⟨1, 2⟩ ⟨⟨0, 0⟩, ⟨0, 0⟩⟩ 1) (1/2)) = 101/100 ∧
    (1 : ℚ) < 101/100 := by
  constructor
  · norm_num [MacroSolution.addSolute, MacroSolution.addWater, MacroSolution.totalVolume,
      MacroSolution.getFreeVolume, MIN_VOLUME, NumberProperty.set]
  · norm_num

/-- C4 counterexample: `addSolute` is not a no-op when `freeVolume ≤ 0`.
With `maxVolume = 1`, two decimal places of precision and a beaker holding
only water at full capacity (`freeVolume = 0`), `addSolute(0.5)` changes the
solute volume from `0` to `MIN_VOLUME = 0.01`. -/
theorem addSolute_not_noop_when_full :
    MacroSolution.getFreeVolume ⟨1, 2⟩ ⟨⟨0, 0⟩, ⟨0, 1⟩⟩ ≤ 0 ∧
    (0 : ℚ) < 1/2 ∧
    (MacroSolution.addSolute ⟨1, 2⟩ ⟨⟨0, 0⟩, ⟨0, 1⟩⟩ (1/2)).soluteVolumeProperty.value
      = 1/100 := by
  refine ⟨?_, by norm_num, ?_⟩
  · norm_num [MacroSolution.getFreeVolume, MacroSolution.totalVolume]
  · norm_num [MacroSolution.addSolute, MacroSolution.getFreeVolume,
      MacroSolution.totalVolume, MIN_VOLUME, NumberProperty.set]

open MacroSolution in
/-- C4 (amended): for a positive delta, `addSolute`/`addWater` set the
respective volume to `max( MIN_VOLUME, volume + min( deltaVolume, freeVolume ) )`
and leave the other volume unchanged; the call is a no-op when
`deltaVolume ≤ 0`; and whenever the un-snapped result is at least
`MIN_VOLUME` the increase is exactly `min( deltaVolume, freeVolume )`
(in particular whenever `freeVolume > 0` and the current volume is already at
least `MIN_VOLUME`). -/
theorem addSolute_addWater_delta_semantics
    (cfg : MacroSolutionConfig) (st : MacroSolutionState) (deltaVolume : ℚ) :
    (deltaVolume ≤ 0 →
      addSolute cfg st deltaVolume = st ∧ addWater cfg st deltaVolume = st) ∧
    (0 < deltaVolume →
      (addSolute cfg st deltaVolume).soluteVolumeProperty.value =
        max (MIN_VOLUME cfg)
          (st.soluteVolumeProperty.value + min deltaVolume (getFreeVolume cfg st)) ∧
      (addSolute cfg st deltaVolume).waterVolumeProperty.value =
        st.waterVolumeProperty.value ∧
      (addWater cfg st deltaVolume).waterVolumeProperty.value =
        max (MIN_VOLUME cfg)
          (st.waterVolumeProperty.value + min deltaVolume (getFreeVolume cfg st)) ∧
      (addWater cfg st deltaVolume).soluteVolumeProperty.value =
        st.soluteVolumeProperty.value) ∧
    (0 < deltaVolume →
      MIN_VOLUME cfg ≤ st.soluteVolumeProperty.value + min deltaVolume (getFreeVolume cfg st) →
      (addSolute cfg st deltaVolume).soluteVolumeProperty.value =
        st.soluteVolumeProperty.value + min deltaVolume (getFreeVolume cfg st)) := by
  refine ⟨fun h => ?_, fun h => ?_, fun h hmin => ?_⟩
  · have hneg : ¬(0 < deltaVolume) := not_lt.mpr h
    exact ⟨by simp only [addSolute, if_neg hneg], by simp only [addWater, if_neg hneg]⟩
  · simp only [addSolute, addWater, NumberProperty.set, if_pos h]
    exact ⟨trivial, trivial, trivial, trivial⟩
  · simp only [addSolute, NumberProperty.set, if_pos h]
    exact max_eq_right hmin

/-- Witness for C4 (amended): with `maxVolume = 1`, two decimal places,
water `0.2` and solute `0.1`, `addSolute(0.05)` increases the solute volume
by exactly `min(0.05, 0.7) = 0.05`, and `addSolute(-1)` is a no-op. -/
theorem addSolute_addWater_delta_semantics_witness :
    MacroSolution.addSolute ⟨1, 2⟩ ⟨⟨0, 1/10⟩, ⟨0, 1/5⟩⟩ (-1) = ⟨⟨0, 1/10⟩, ⟨0, 1/5⟩⟩ ∧
    (MacroSolution.addSolute ⟨1, 2⟩ ⟨⟨0, 1/10⟩, ⟨0, 1/5⟩⟩ (1/20)).soluteVolumeProperty.value
      = 3/20 := by
  constructor
  · exact ((addSolute_addWater_delta_semantics ⟨1, 2⟩ ⟨⟨0, 1/10⟩, ⟨0, 1/5⟩⟩ (-1)).1
      (by norm_num)).1
  · have h := (addSolute_addWater_delta_semantics ⟨1, 2⟩ ⟨⟨0, 1/10⟩, ⟨0, 1/5⟩⟩ (1/20)).2.2
      (by norm_num)
      (by norm_num [MIN_VOLUME, MacroSolution.getFreeVolume, MacroSolution.totalVolume])
    rw [h]
    norm_num [MacroSolution.getFreeVolume, MacroSolution.totalVolume]

/-- C9: whenever the solute reference changes and PhET-iO state is not being
restored, both volumes are reset to their construction-time values; while
state is being restored, the callback leaves the state unchanged. -/
theorem soluteChanged_resets_volumes (st : MacroSolutionState) :
    (MacroSolution.soluteChanged false st).soluteVolumeProperty.value =
      st.soluteVolumeProperty.initialValue ∧
    (MacroSolution.soluteChanged false st).waterVolumeProperty.value =
      st.waterVolumeProperty.initialValue ∧
    MacroSolution.soluteChanged true st = st := by
  exact ⟨rfl, rfl, rfl⟩

/-- C10: `reset()` is idempotent — applying `MacroSolution.reset` twice gives
the same state (volumes and hence all derived values) as applying it once. -/
theorem reset_idempotent (st : MacroSolutionState) :
    MacroSolution.reset (MacroSolution.reset st) = MacroSolution.reset st := rfl

/-- C5 counterexample: during autofill, `step(dt)` does not always add solute
volume `min(flowRate * dt, autofillTarget - currentTotal)`.  With
`dt = 0.001`, `min(0.75 * 0.001, 0.5 - 0) = 0.00075`, but `addSolute` snaps
the solute volume up to `MIN_VOLUME`, so the solute volume grows by `0.01`. -/
theorem step_autofill_adds_more_than_min :
    (MacroModel.step autofillCfg autofillState (1/1000)).solution.soluteVolumeProperty.value -
        autofillState.solution.soluteVolumeProperty.value = 1/100 ∧
    min (autofillState.dropperFlowRate * (1/1000))
        (autofillCfg.autofillVolume - MacroSolution.totalVolume autofillState.solution) =
      3/4000 ∧
    (1/100 : ℚ) ≠ 3/4000 := by
  refine ⟨?_, ?_, by norm_num⟩
  · norm_num [MacroModel.step, MacroModel.stepAutofill, MacroModel.withVolumeLink,
      MacroModel.updateFaucetsAndDropper, MacroModel.stopAutofill, autofillCfg, autofillState,
      MacroSolution.addSolute, MacroSolution.totalVolume, MacroSolution.getFreeVolume,
      MIN_VOLUME, NumberProperty.set]
  · norm_num [autofillCfg, autofillState, MacroSolution.totalVolume]

open MacroSolution MacroModel in
/-- C5 (amended): while the model is in the Autofilling state (autofill runs
on a solution containing only solute, entered with volumes freshly reset),
each `step(dt)` passes `min(flowRate * dt, autofillTarget - currentTotal)` to
`addSolute`; when that delta is positive the new solute volume is the delta
added to the old one, except that a result below the minimum-resolvable
epsilon is snapped up to the epsilon, and when the delta is not positive the
solution is unchanged.  Provided the epsilon is at most the target and the
target at most `maxVolume`, the total volume never exceeds the autofill
target; and when the total volume reaches the target exactly, the model
leaves the Autofilling state (`isAutofilling` becomes false, the dropper
stops dispensing) and faucets and dropper are re-enabled according to the
current fill level. -/
theorem stepAutofill_bounded_and_transition
    (cfg : MacroModelConfig) (mst : MacroModelState) (dt : ℚ)
    (hA : mst.isAutofilling = true)
    (hw : mst.solution.waterVolumeProperty.value = 0)
    (hs0 : 0 ≤ mst.solution.soluteVolumeProperty.value)
    (hsT : mst.solution.soluteVolumeProperty.value ≤ cfg.autofillVolume)
    (hminT : MIN_VOLUME cfg.solutionConfig ≤ cfg.autofillVolume)
    (hTmax : cfg.autofillVolume ≤ cfg.solutionConfig.maxVolume) :
    (MacroModel.step cfg mst dt).solution.waterVolumeProperty =
        mst.solution.waterVolumeProperty ∧
    totalVolume (MacroModel.step cfg mst dt).solution ≤ cfg.autofillVolume ∧
    (0 < min (mst.dropperFlowRate * dt) (cfg.autofillVolume - totalVolume mst.solution) →
      (MacroModel.step cfg mst dt).solution.soluteVolumeProperty.value =
        max (MIN_VOLUME cfg.solutionConfig)
          (mst.solution.soluteVolumeProperty.value +
            min (mst.dropperFlowRate * dt) (cfg.autofillVolume - totalVolume mst.solution))) ∧
    (min (mst.dropperFlowRate * dt) (cfg.autofillVolume - totalVolume mst.solution) ≤ 0 →
      (MacroModel.step cfg mst dt).solution = mst.solution) ∧
    (totalVolume (MacroModel.step cfg mst dt).solution = cfg.autofillVolume →
      (MacroModel.step cfg mst dt).isAutofilling = false ∧
      (MacroModel.step cfg mst dt).dropperIsDispensing = false ∧
      (MacroModel.step cfg mst dt).waterFaucetEnabled =
        decide (cfg.autofillVolume < cfg.solutionConfig.maxVolume) ∧
      (MacroModel.step cfg mst dt).drainFaucetEnabled =
        decide (0 < cfg.autofillVolume) ∧
      (MacroModel.step cfg mst dt).dropperEnabled =
        decide (cfg.autofillVolume < cfg.solutionConfig.maxVolume)) := by
  have hstep : MacroModel.step cfg mst dt = MacroModel.stepAutofill cfg mst dt := by
    simp [MacroModel.step, hA]
  set T := cfg.autofillVolume with hT
  set ε := MIN_VOLUME cfg.solutionConfig with hε
  set s := mst.solution.soluteVolumeProperty.value with hs
  set d := min (mst.dropperFlowRate * dt) (T - totalVolume mst.solution) with hd
  have htot : totalVolume mst.solution = s := by
    simp [totalVolume, hw, hs]
  set sol2 := addSolute cfg.solutionConfig mst.solution d with hsol2
  set mst2 := withVolumeLink cfg mst sol2 with hmst2
  have hmst2sol : mst2.solution = sol2 := withVolumeLink_solution cfg mst sol2
  have hRdef : MacroModel.step cfg mst dt =
      if totalVolume mst2.solution = T then stopAutofill cfg mst2 else mst2 := by
    rw [hstep]
    rfl
  have hwater : sol2.waterVolumeProperty = mst.solution.waterVolumeProperty := by
    rw [hsol2]
    unfold addSolute
    split <;> rfl
  have hd_le : d ≤ T - s := by
    rw [← htot]
    exact min_le_right _ _
  have hs2pos : 0 < d → sol2.soluteVolumeProperty.value = max ε (s + d) := by
    intro hdpos
    have hfree : d ≤ getFreeVolume cfg.solutionConfig mst.solution := by
      unfold getFreeVolume
      rw [htot]
      linarith
    rw [hsol2]
    unfold addSolute
    rw [if_pos hdpos, min_eq_left hfree]
    rfl
  have hs2neg : d ≤ 0 → sol2 = mst.solution := by
    intro hdneg
    rw [hsol2]
    unfold addSolute
    rw [if_neg (not_lt.mpr hdneg)]
  have htot2 : totalVolume sol2 ≤ T := by
    rcases le_or_lt d 0 with hdneg | hdpos
    · rw [hs2neg hdneg, htot]
      exact hsT
    · have : totalVolume sol2 = sol2.soluteVolumeProperty.value := by
        unfold totalVolume
        rw [hwater, hw, add_zero]
      rw [this, hs2pos hdpos]
      exact max_le hminT (by linarith)
  have hRsol : (MacroModel.step cfg mst dt).solution = sol2 := by
    rw [hRdef]
    split
    · rw [(stopAutofill_spec cfg mst2).1, hmst2sol]
    · exact hmst2sol
  refine ⟨?_, ?_, ?_, ?_, ?_⟩
  · rw [hRsol]
    exact hwater
  · rw [hRsol]
    exact htot2
  · intro hdpos
    rw [hRsol]
    exact hs2pos hdpos
  · intro hdneg
    rw [hRsol]
    exact hs2neg hdneg
  · intro hfinal
    rw [hRsol] at hfinal
    have hcond : totalVolume mst2.solution = T := by rw [hmst2sol]; exact hfinal
    rw [hRdef, if_pos hcond]
    have h := stopAutofill_spec cfg mst2
    rw [hcond] at h
    exact ⟨h.2.1, h.2.2.1, h.2.2.2.1, h.2.2.2.2.1, h.2.2.2.2.2⟩

open MacroSolution in
/-- Witness for C5 (amended): from the demonstration autofill start state
with `dt = 1`, the delta is `min(0.75, 0.5) = 0.5 > 0`, the solute volume
becomes exactly the `0.5` L target, and the model transitions out of
Autofilling with the water faucet, drain faucet and dropper all re-enabled
(the beaker is half full). -/
theorem stepAutofill_bounded_and_transition_witness :
    (MacroModel.step autofillCfg autofillState 1).solution.soluteVolumeProperty.value = 1/2 ∧
    (MacroModel.step autofillCfg autofillState 1).isAutofilling = false ∧
    (MacroModel.step autofillCfg autofillState 1).dropperIsDispensing = false ∧
    (MacroModel.step autofillCfg autofillState 1).waterFaucetEnabled = true ∧
    (MacroModel.step autofillCfg autofillState 1).drainFaucetEnabled = true ∧
    (MacroModel.step autofillCfg autofillState 1).dropperEnabled = true := by
  have h := stepAutofill_bounded_and_transition autofillCfg autofillState 1
    rfl rfl (by norm_num [autofillState]) (by norm_num [autofillState, autofillCfg])
    (by norm_num [MIN_VOLUME, autofillCfg]) (by norm_num [autofillCfg])
  have hval : (MacroModel.step autofillCfg autofillState 1).solution.soluteVolumeProperty.value
      = 1/2 := by
    have h3 := h.2.2.1 (by norm_num [autofillState, autofillCfg, totalVolume])
    rw [h3]
    norm_num [autofillState, autofillCfg, totalVolume, MIN_VOLUME]
  have hwv : (MacroModel.step autofillCfg autofillState 1).solution.waterVolumeProperty.value
      = 0 := by
    rw [h.1]
    rfl
  have htt : totalVolume (MacroModel.step autofillCfg autofillState 1).solution
      = autofillCfg.autofillVolume := by
    unfold totalVolume
    rw [hval, hwv]
    norm_num [autofillCfg]
  have h5 := h.2.2.2.2 htt
  refine ⟨hval, h5.1, h5.2.1, ?_, ?_, ?_⟩
  · rw [h5.2.2.1]
    norm_num [autofillCfg]
  · rw [h5.2.2.2.1]
    norm_num [autofillCfg]
  · rw [h5.2.2.2.2]
    norm_num [autofillCfg]

/-- C6 counterexample: after `drawMolecules` with counts `(50, 50)`, a call
with counts `(50, 60)` does NOT leave the species-A (H3O) array unchanged —
every H3O coordinate is freshly drawn.  With the identity stream, entry 0 of
the H3O x-array changes from draw 0 to draw 200 (and the first OH x-entry
changes from draw 100 to draw 300), because the code regenerates both
species' coordinates whenever either count changes. -/
theorem drawMolecules_regenerates_unchanged_species :
    (drawMolecules (fun n => (n : ℤ)) 50 50 initialCanvas).xH3O 0 = 0 ∧
    (drawMolecules (fun n => (n : ℤ)) 50 60
        (drawMolecules (fun n => (n : ℤ)) 50 50 initialCanvas)).xH3O 0 = 200 ∧
    (drawMolecules (fun n => (n : ℤ)) 50 50 initialCanvas).xOH 0 = 100 ∧
    (drawMolecules (fun n => (n : ℤ)) 50 60
        (drawMolecules (fun n => (n : ℤ)) 50 50 initialCanvas)).xOH 0 = 300 ∧
    (0 : ℤ) ≠ 200 := by
  refine ⟨?_, ?_, ?_, ?_, by norm_num⟩ <;>
    norm_num [drawMolecules, initialCanvas]

/-- C6 (amended): the position-cache update is a no-op exactly when both
counts equal the previous call's counts (so `(50,50)` then `(50,50)` leaves
the arrays identical); but when either count differs, the coordinates of
BOTH species are freshly randomized from index 0 up to each new count —
entries below the previous count are not preserved.  Shrinking alone (with
the other count unchanged) still regenerates all retained entries. -/
theorem drawMolecules_cache_semantics (rand : ℕ → ℤ) (nH3O nOH : ℕ)
    (st : MoleculesCanvasState) :
    (nH3O = st.numberOfH3OMolecules ∧ nOH = st.numberOfOHMolecules →
      drawMolecules rand nH3O nOH st = st) ∧
    (¬(nH3O = st.numberOfH3OMolecules ∧ nOH = st.numberOfOHMolecules) →
      (∀ i < nH3O,
        (drawMolecules rand nH3O nOH st).xH3O i = rand (st.nextDraw + 2 * i) ∧
        (drawMolecules rand nH3O nOH st).yH3O i = rand (st.nextDraw + 2 * i + 1)) ∧
      (∀ i < nOH,
        (drawMolecules rand nH3O nOH st).xOH i = rand (st.nextDraw + 2 * nH3O + 2 * i) ∧
        (drawMolecules rand nH3O nOH st).yOH i = rand (st.nextDraw + 2 * nH3O + 2 * i + 1)) ∧
      (drawMolecules rand nH3O nOH st).numberOfH3OMolecules = nH3O ∧
      (drawMolecules rand nH3O nOH st).numberOfOHMolecules = nOH) := by
  constructor
  · intro h
    have hcond : ¬(nH3O ≠ st.numberOfH3OMolecules ∨ nOH ≠ st.numberOfOHMolecules) := by
      push_neg
      exact h
    simp only [drawMolecules, if_neg hcond]
  · intro h
    have hcond : nH3O ≠ st.numberOfH3OMolecules ∨ nOH ≠ st.numberOfOHMolecules := by
      by_contra hc
      push_neg at hc
      exact h hc
    simp only [drawMolecules, if_pos hcond]
    refine ⟨fun i hi => ⟨?_, ?_⟩, fun i hi => ⟨?_, ?_⟩, trivial, trivial⟩ <;>
      simp only [if_pos hi]

/-- Witness for C6 (amended): calling with the previous counts `(50, 50)` is
a no-op, and after a change to `(50, 60)` entry 10 of the H3O x-array holds
the fresh draw at stream index `220`. -/
theorem drawMolecules_cache_semantics_witness :
    drawMolecules (fun n => (n : ℤ)) 50 50
        (drawMolecules (fun n => (n : ℤ)) 50 50 initialCanvas) =
      drawMolecules (fun n => (n : ℤ)) 50 50 initialCanvas ∧
    (drawMolecules (fun n => (n : ℤ)) 50 60
        (drawMolecules (fun n => (n : ℤ)) 50 50 initialCanvas)).xH3O 10 = 220 := by
  constructor
  · exact (drawMolecules_cache_semantics (fun n => (n : ℤ)) 50 50
      (drawMolecules (fun n => (n : ℤ)) 50 50 initialCanvas)).1
      (by norm_num [drawMolecules, initialCanvas])
  · have h := ((drawMolecules_cache_semantics (fun n => (n : ℤ)) 50 60
      (drawMolecules (fun n => (n : ℤ)) 50 50 initialCanvas)).2
      (by norm_num [drawMolecules, initialCanvas])).1 10 (by norm_num)
    rw [h.1]
    norm_num [drawMolecules, initialCanvas]

/-- Scaling both volumes by the same positive factor leaves `computePH`
unchanged: the mixture formula depends only on the volume ratio. -/
theorem computePH_scale (solutePH : ℝ) (k s w : ℚ) (hk : 0 < k) :
    computePH solutePH (k * s) (k * w) = computePH solutePH s w := by
  unfold computePH
  have hsum : k * s + k * w = k * (s + w) := by ring
  by_cases h : s + w = 0
  · rw [hsum, h, mul_zero]
    simp
  · have hkne : k ≠ 0 := ne_of_gt hk
    have h2 : k * s + k * w ≠ 0 := by
      rw [hsum]
      exact mul_ne_zero hkne h
    have hkR : (k : ℝ) ≠ 0 := by exact_mod_cast hkne
    have hswR : ((s : ℝ) + (w : ℝ)) ≠ 0 := by
      intro hc
      apply h
      have : ((s + w : ℚ) : ℝ) = 0 := by push_cast; exact hc
      exact_mod_cast this
    rw [if_neg h2, if_neg h]
    have harg : ∀ a b : ℝ,
        (a * ((k * s : ℚ) : ℝ) + b * ((k * w : ℚ) : ℝ)) /
          (((k * s : ℚ) : ℝ) + ((k * w : ℚ) : ℝ)) =
        (a * (s : ℝ) + b * (w : ℝ)) / ((s : ℝ) + (w : ℝ)) := by
      intro a b
      push_cast
      rw [show (k : ℝ) * s + k * w = k * ((s : ℝ) + w) by ring,
        show a * ((k : ℝ) * s) + b * (k * w) = (k : ℝ) * (a * s + b * w) by ring,
        mul_div_mul_left _ _ hkR]
    split
    · rw [harg]
    · rw [harg]

/-- When both writes change their property, the suppressed first
notification leaves at most one pH notification, and any notification that
does occur carries the pH computed from both final volumes. -/
theorem setVolumeAtomicNotifications_spec (solutePH : ℝ) (st : MacroSolutionState)
    (w s : ℚ) (hw : w ≠ st.waterVolumeProperty.value)
    (hs : s ≠ st.soluteVolumeProperty.value) :
    (setVolumeAtomicNotifications solutePH st w s).length ≤ 1 ∧
    ∀ x ∈ setVolumeAtomicNotifications solutePH st w s, x = computePH solutePH s w := by
  have hignore : w ≠ st.waterVolumeProperty.value ∧ s ≠ st.soluteVolumeProperty.value :=
    ⟨hw, hs⟩
  by_cases heq : computePH solutePH s w =
      computePH solutePH st.soluteVolumeProperty.value st.waterVolumeProperty.value
  · have hempty : setVolumeAtomicNotifications solutePH st w s = [] := by
      simp only [setVolumeAtomicNotifications, if_neg hw, if_pos hignore, if_neg hs]
      rw [if_neg (fun hcon => hcon.2 rfl), if_neg (fun hcon => hcon.2 heq)]
      rfl
    rw [hempty]
    refine ⟨by norm_num, ?_⟩
    intro x hx
    cases hx
  · have hone : setVolumeAtomicNotifications solutePH st w s = [computePH solutePH s w] := by
      simp only [setVolumeAtomicNotifications, if_neg hw, if_pos hignore, if_neg hs]
      rw [if_neg (fun hcon => hcon.2 rfl), if_pos ⟨hs, heq⟩]
      rfl
    rw [hone]
    refine ⟨by norm_num, ?_⟩
    intro x hx
    rw [List.mem_singleton] at hx
    exact hx

open MacroSolution in
/-- C2 (amended): during any `drainSolution` call that changes both
`waterVolume` and `soluteVolume`, a subscriber of the derived pH observes at
most one notification, and any notification it observes carries the pH
computed from both final volumes — never a pH computed from one new volume
and one stale volume (the first write's propagation is suppressed, and the
second write's propagation publishes only when the consistent final pH
differs from the pH before the drain; a proportional drain leaves the pH
value unchanged and therefore publishes nothing). -/
theorem drain_pH_notifications_atomic
    (cfg : MacroSolutionConfig) (solutePH : ℝ) (st : MacroSolutionState) (deltaVolume : ℚ)
    (hdelta : 0 < deltaVolume) (htotal : 0 < totalVolume st)
    (hwch : (drainSolution cfg st deltaVolume).waterVolumeProperty.value ≠
      st.waterVolumeProperty.value)
    (hsch : (drainSolution cfg st deltaVolume).soluteVolumeProperty.value ≠
      st.soluteVolumeProperty.value) :
    (drainNotifications cfg solutePH st deltaVolume).length ≤ 1 ∧
    ∀ x ∈ drainNotifications cfg solutePH st deltaVolume,
      x = computePH solutePH (drainSolution cfg st deltaVolume).soluteVolumeProperty.value
            (drainSolution cfg st deltaVolume).waterVolumeProperty.value := by
  by_cases hbr : totalVolume st - deltaVolume < MIN_VOLUME cfg
  · simp only [drainSolution, setVolumeAtomic, NumberProperty.set, if_pos hdelta,
      if_pos htotal, if_pos hbr] at hwch hsch ⊢
    simp only [drainNotifications, if_pos hdelta, if_pos htotal, if_pos hbr]
    exact setVolumeAtomicNotifications_spec solutePH st 0 0 hwch hsch
  · simp only [drainSolution, setVolumeAtomic, NumberProperty.set, if_pos hdelta,
      if_pos htotal, if_neg hbr] at hwch hsch ⊢
    simp only [drainNotifications, if_pos hdelta, if_pos htotal, if_neg hbr]
    exact setVolumeAtomicNotifications_spec solutePH st _ _ hwch hsch

open MacroSolution in
/-- C2 counterexample: `drainSolution(0.5)` on the scenario state (a solute
of stock pH 3) changes BOTH volumes (water `0.6 → 0.3`, solute
`0.4 → 0.2`), yet a pH subscriber observes NO notification at all — not
exactly one — because the proportional drain preserves the volume ratio and
with it the derived pH value, and a property whose recomputed value is
unchanged does not notify. -/
theorem drain_pH_notification_not_exactly_one :
    (drainSolution ⟨1, 2⟩ drainDemoState (1/2)).waterVolumeProperty.value ≠
      drainDemoState.waterVolumeProperty.value ∧
    (drainSolution ⟨1, 2⟩ drainDemoState (1/2)).soluteVolumeProperty.value ≠
      drainDemoState.soluteVolumeProperty.value ∧
    drainNotifications ⟨1, 2⟩ 3 drainDemoState (1/2) = [] := by
  have hdelta : (0 : ℚ) < 1/2 := by norm_num
  have htotal : 0 < totalVolume drainDemoState := by
    norm_num [totalVolume, drainDemoState]
  have hbr : ¬(totalVolume drainDemoState - 1/2 < MIN_VOLUME ⟨1, 2⟩) := by
    norm_num [totalVolume, drainDemoState, MIN_VOLUME]
  have hw3 : drainDemoState.waterVolumeProperty.value -
      (1/2) * drainDemoState.waterVolumeProperty.value / totalVolume drainDemoState
      = 3/10 := by
    norm_num [totalVolume, drainDemoState]
  have hs3 : drainDemoState.soluteVolumeProperty.value -
      (1/2) * drainDemoState.soluteVolumeProperty.value / totalVolume drainDemoState
      = 1/5 := by
    norm_num [totalVolume, drainDemoState]
  refine ⟨?_, ?_, ?_⟩
  · simp only [drainSolution, setVolumeAtomic, NumberProperty.set, if_pos hdelta,
      if_pos htotal, if_neg hbr, hw3]
    norm_num [drainDemoState]
  · simp only [drainSolution, setVolumeAtomic, NumberProperty.set, if_pos hdelta,
      if_pos htotal, if_neg hbr, hs3]
    norm_num [drainDemoState]
  · have hscale : computePH 3 (1/5 : ℚ) (3/10 : ℚ) = computePH 3 (2/5 : ℚ) (3/5 : ℚ) := by
      have h := computePH_scale 3 (1/2) (2/5) (3/5) (by norm_num)
      norm_num at h
      exact h
    simp only [drainNotifications, if_pos hdelta, if_pos htotal, if_neg hbr, hw3, hs3]
    have hw : (3/10 : ℚ) ≠ drainDemoState.waterVolumeProperty.value := by
      norm_num [drainDemoState]
    have hs : (1/5 : ℚ) ≠ drainDemoState.soluteVolumeProperty.value := by
      norm_num [drainDemoState]
    have hpH0 : computePH 3 drainDemoState.soluteVolumeProperty.value
        drainDemoState.waterVolumeProperty.value = computePH 3 (2/5 : ℚ) (3/5 : ℚ) := rfl
    have hig : (3/10 : ℚ) ≠ drainDemoState.waterVolumeProperty.value ∧
        (1/5 : ℚ) ≠ drainDemoState.soluteVolumeProperty.value := ⟨hw, hs⟩
    simp only [setVolumeAtomicNotifications, if_neg hw, if_pos hig, if_neg hs]
    rw [if_neg (fun hcon => hcon.2 rfl),
      if_neg (fun hcon => hcon.2 (by rw [hpH0]; exact hscale))]
    rfl

open MacroSolution in
/-- Witness for C2 (amended): a drain that empties the beaker
(`waterVolume = 0.005`, `soluteVolume = 0.004`, `drainSolution(0.01)` with
`MIN_VOLUME = 0.01`) changes both volumes to zero, and the subscriber
observes the single notification `[none]` — the pH computed from both final
(zero) volumes. -/
theorem drain_pH_notifications_atomic_witness :
    drainNotifications ⟨1, 2⟩ 3 ⟨⟨0, 1/250⟩, ⟨0, 1/200⟩⟩ (1/100) = [none] ∧
    (none : Option ℝ) =
      computePH 3 (drainSolution ⟨1, 2⟩ ⟨⟨0, 1/250⟩, ⟨0, 1/200⟩⟩ (1/100)).soluteVolumeProperty.value
        (drainSolution ⟨1, 2⟩ ⟨⟨0, 1/250⟩, ⟨0, 1/200⟩⟩ (1/100)).waterVolumeProperty.value := by
  have hdelta : (0 : ℚ) < 1/100 := by norm_num
  have htotal : 0 < totalVolume ⟨⟨0, 1/250⟩, ⟨0, 1/200⟩⟩ := by
    norm_num [totalVolume]
  have hwch : (drainSolution ⟨1, 2⟩ ⟨⟨0, 1/250⟩, ⟨0, 1/200⟩⟩ (1/100)).waterVolumeProperty.value ≠
      (⟨⟨0, 1/250⟩, ⟨0, 1/200⟩⟩ : MacroSolutionState).waterVolumeProperty.value := by
    norm_num [drainSolution, setVolumeAtomic, NumberProperty.set, totalVolume, MIN_VOLUME]
  have hsch : (drainSolution ⟨1, 2⟩ ⟨⟨0, 1/250⟩, ⟨0, 1/200⟩⟩ (1/100)).soluteVolumeProperty.value ≠
      (⟨⟨0, 1/250⟩, ⟨0, 1/200⟩⟩ : MacroSolutionState).soluteVolumeProperty.value := by
    norm_num [drainSolution, setVolumeAtomic, NumberProperty.set, totalVolume, MIN_VOLUME]
  have h := drain_pH_notifications_atomic ⟨1, 2⟩ 3 ⟨⟨0, 1/250⟩, ⟨0, 1/200⟩⟩ (1/100)
    hdelta htotal hwch hsch
  have hbr : totalVolume ⟨⟨0, 1/250⟩, ⟨0, 1/200⟩⟩ - 1/100 < MIN_VOLUME ⟨1, 2⟩ := by
    norm_num [totalVolume, MIN_VOLUME]
  have hfinal : computePH 3
      (drainSolution ⟨1, 2⟩ ⟨⟨0, 1/250⟩, ⟨0, 1/200⟩⟩ (1/100)).soluteVolumeProperty.value
      (drainSolution ⟨1, 2⟩ ⟨⟨0, 1/250⟩, ⟨0, 1/200⟩⟩ (1/100)).waterVolumeProperty.value
      = none := by
    simp only [drainSolution, setVolumeAtomic, NumberProperty.set, if_pos hdelta,
      if_pos htotal, if_pos hbr]
    simp [computePH]
  have hlist : drainNotifications ⟨1, 2⟩ 3 ⟨⟨0, 1/250⟩, ⟨0, 1/200⟩⟩ (1/100) = [none] := by
    have hpH0ne : computePH 3 (⟨⟨0, 1/250⟩, ⟨0, 1/200⟩⟩ : MacroSolutionState).soluteVolumeProperty.value
        (⟨⟨0, 1/250⟩, ⟨0, 1/200⟩⟩ : MacroSolutionState).waterVolumeProperty.value ≠ none := by
      simp only [computePH]
      rw [if_neg (by norm_num : ¬((1/250 : ℚ) + 1/200 = 0))]
      rw [if_pos (by norm_num : (3 : ℝ) < 7)]
      exact Option.some_ne_none _
    simp only [drainNotifications, if_pos hdelta, if_pos htotal, if_pos hbr]
    have hw : (0 : ℚ) ≠ (⟨⟨0, 1/250⟩, ⟨0, 1/200⟩⟩ : MacroSolutionState).waterVolumeProperty.value := by
      norm_num
    have hs : (0 : ℚ) ≠ (⟨⟨0, 1/250⟩, ⟨0, 1/200⟩⟩ : MacroSolutionState).soluteVolumeProperty.value := by
      norm_num
    have hig : (0 : ℚ) ≠ (⟨⟨0, 1/250⟩, ⟨0, 1/200⟩⟩ : MacroSolutionState).waterVolumeProperty.value ∧
        (0 : ℚ) ≠ (⟨⟨0, 1/250⟩, ⟨0, 1/200⟩⟩ : MacroSolutionState).soluteVolumeProperty.value := ⟨hw, hs⟩
    simp only [setVolumeAtomicNotifications, if_neg hw, if_pos hig, if_neg hs]
    have hzero : computePH 3 (0 : ℚ) (0 : ℚ) = none := by
      simp [computePH]
    rw [if_neg (fun hcon => hcon.2 rfl),
      if_pos ⟨hs, by rw [hzero]; exact fun hc => hpH0ne hc.symm⟩]
    rw [hzero]
    rfl
  refine ⟨hlist, ?_⟩
  have hm := h.2 none (by rw [hlist]; exact List.mem_singleton.mpr rfl)
  exact hm

/-- Symmetric rounding of an integer is that integer. -/
theorem roundSymmetric_intCast (n : ℤ) : roundSymmetric (n : ℝ) = n := by
  have h1 : ⌊(n : ℝ) + 1/2⌋ = n := by
    rw [Int.floor_eq_iff]
    constructor
    · linarith
    · linarith
  have h2 : ⌊-(n : ℝ) + 1/2⌋ = -n := by
    rw [Int.floor_eq_iff]
    constructor
    · push_cast
      linarith
    · push_cast
      linarith
  unfold roundSymmetric
  split
  · rw [h2, neg_neg]
  · exact h1

/-- `10 ^ (-7 : ℝ)` as a rational power. -/
theorem ten_rpow_neg_seven : (10 : ℝ) ^ (-(7 : ℝ)) = 1 / 10 ^ (7 : ℕ) := by
  rw [Real.rpow_neg (by norm_num : (0:ℝ) ≤ 10)]
  rw [show ((7:ℝ)) = ((7:ℕ):ℝ) by norm_num, Real.rpow_natCast]
  rw [one_div]

theorem computeNumberOfH3O_seven : computeNumberOfH3O 7 = 50 := by
  unfold computeNumberOfH3O pHToConcentrationH3O
  have harg : (10:ℝ) ^ (-(7:ℝ)) * ((TOTAL_MOLECULES_AT_PH_7 : ℝ) / 2) / (1 / 10 ^ 7)
      = ((50 : ℤ) : ℝ) := by
    rw [ten_rpow_neg_seven]
    norm_num [TOTAL_MOLECULES_AT_PH_7]
  rw [harg, roundSymmetric_intCast]

theorem computeNumberOfOH_seven : computeNumberOfOH 7 = 50 := by
  unfold computeNumberOfOH pHToConcentrationOH
  have harg : (10:ℝ) ^ ((7:ℝ) - 14) * ((TOTAL_MOLECULES_AT_PH_7 : ℝ) / 2) / (1 / 10 ^ 7)
      = ((50 : ℤ) : ℝ) := by
    rw [show ((7:ℝ) - 14) = -(7:ℝ) by norm_num, ten_rpow_neg_seven]
    norm_num [TOTAL_MOLECULES_AT_PH_7]
  rw [harg, roundSymmetric_intCast]

/-- C7: the particle-count function maps a null pH to counts `(0, 0)`, and
maps pH 7 to two equal, nonzero counts (both 50). -/
theorem countsOfPH_null_and_neutral :
    countsOfPH none = (0, 0) ∧
    countsOfPH (some 7) = (50, 50) ∧
    (50 : ℤ) ≠ 0 := by
  refine ⟨rfl, ?_, by norm_num⟩
  simp only [countsOfPH]
  rw [if_pos (by norm_num : (6:ℝ) ≤ 7 ∧ (7:ℝ) ≤ 8)]
  rw [computeNumberOfH3O_seven, computeNumberOfOH_seven]
  have hmax : max ((MIN_MINORITY_MOLECULES : ℝ)) (((50 : ℤ) : ℝ)) = ((50 : ℤ) : ℝ) := by
    norm_num [MIN_MINORITY_MOLECULES]
  rw [hmax, roundSymmetric_intCast]

/-- C8 counterexample: in the empty state the solute volume is zero, yet the
derived color is black, not the pure-water color. -/
theorem colorValue_empty_not_water :
    (⟨⟨0, 0⟩, ⟨0, 0⟩⟩ : MacroSolutionState).soluteVolumeProperty.value = 0 ∧
    colorValue demoSolute ⟨⟨0, 0⟩, ⟨0, 0⟩⟩ = SimColor.black ∧
    SimColor.black ≠ SimColor.water := by
  refine ⟨rfl, ?_, by decide⟩
  simp only [colorValue]
  rw [if_pos]
  norm_num

/-- C8 (amended): for every state with nonzero total volume in which the
solute volume is zero, or in which the displayed pH rounds to exactly
neutral at the pH meter's display precision, the derived color equals the
pure-water color.  (In the empty state the derivation returns black
instead.) -/
theorem colorValue_water_cases (solute : Solute) (st : MacroSolutionState)
    (h : st.soluteVolumeProperty.value + st.waterVolumeProperty.value ≠ 0)
    (h2 : st.soluteVolumeProperty.value = 0 ∨ isEquivalentToWater solute st) :
    colorValue solute st = SimColor.water := by
  simp only [colorValue, if_neg h, if_pos h2]

/-- Witness for C8 (amended): pure water (no solute, water `1` L) has the
pure-water color. -/
theorem colorValue_water_cases_witness :
    colorValue demoSolute ⟨⟨0, 0⟩, ⟨0, 1⟩⟩ = SimColor.water :=
  colorValue_water_cases demoSolute ⟨⟨0, 0⟩, ⟨0, 1⟩⟩ (by norm_num) (Or.inl rfl)
